import Mathlib

/-!
Verification development for the SOS/SensorML station-metadata harvester
(src/sensorml.py).  The Python module is shallowly embedded: the XML
document tree becomes an inductive type with an ElementTree-style
qualified-path query, the per-station parsing and record assembly of
get_stations_df (lines 32-125 of the source) become total Lean functions
returning Except values that mirror the Python exceptions (KeyError,
IndexError, AttributeError, ValueError, NameError), and the pandas
DataFrame assembly (lines 122-123) becomes an explicit column/row/index
structure.  External collaborators (owslib, pyoos, the network fetch) are
modelled at their interfaces, as the design document prescribes.
-/

/-- Shallow embedding of an ElementTree XML element: a qualified tag,
attributes, optional text content, and a list of child elements. -/
inductive Xml : Type where
  | mk (tag : String) (attrs : List (String × String)) (text : Option String)
       (children : List Xml)

/-- Tag of an element. -/
def Xml.tag : Xml → String
  | .mk t _ _ _ => t

/-- Attribute list of an element. -/
def Xml.attrs : Xml → List (String × String)
  | .mk _ a _ _ => a

/-- Text content of an element, if any. -/
def Xml.text : Xml → Option String
  | .mk _ _ tx _ => tx

/-- Child elements of an element. -/
def Xml.children : Xml → List Xml
  | .mk _ _ _ c => c

/-- First-match key lookup on an insertion-ordered association list, the
access pattern of the Python dicts in the source. -/
def pyLookup {α : Type} (k : String) : List (String × α) → Option α
  | [] => Option.none
  | kv :: rest => if kv.1 = k then Option.some kv.2 else pyLookup k rest

/-- Attribute lookup, as the Python dict-like el.attrib.get. -/
def Xml.attr (x : Xml) (name : String) : Option String :=
  pyLookup name x.attrs

/-- ElementTree findall over a pre-split path of qualified tags: each step
restricts to children carrying the given tag, in document order. -/
def Xml.findallPath : List String → Xml → List Xml
  | [], x => [x]
  | t :: rest, x =>
      ((x.children.filter (fun c => c.tag == t)).map (Xml.findallPath rest)).flatten

/-- ElementTree el.findall(path) with the path already resolved to a list
of qualified tags (see nsp below). -/
def Xml.findall (x : Xml) (path : List String) : List Xml :=
  Xml.findallPath path x

/-- ElementTree el.find(path): the first match in document order, if any. -/
def Xml.find (x : Xml) (path : List String) : Option Xml :=
  (x.findall path).head?

/-- Helper splitting a character list at every character satisfying p,
keeping empty pieces, as Python str.split(sep) does. -/
def splitIfAux (p : Char → Bool) : List Char → List Char → List String
  | [], acc => [String.mk acc.reverse]
  | c :: cs, acc =>
      if p c then String.mk acc.reverse :: splitIfAux p cs []
      else splitIfAux p cs (c :: acc)

/-- Python s.split(sep) for a single-character separator: splits at every
occurrence, keeping empty pieces. -/
def splitOnChar (sep : Char) (s : String) : List String :=
  splitIfAux (fun c => c == sep) s.data []

/-- Python s.split() with no argument: split on whitespace runs,
discarding empty pieces. -/
def pySplit (s : String) : List String :=
  (splitIfAux (fun c => c.isWhitespace) s.data []).filter (fun t => t ≠ "")

/-- Python s.split(sep)[-1]: the last piece; split always returns a
nonempty list, so the default is never taken.  Used for both the
role-URI suffix (line 77) and the parameter short names (line 82). -/
def lastSlashSeg (s : String) : String :=
  (splitOnChar '/' s).getLastD ""

/-- Python ','.join(lst) (lines 117-118). -/
def pyJoinComma : List String → String
  | [] => ""
  | x :: xs => xs.foldl (fun acc y => acc ++ "," ++ y) x

/-- Decimal digit run check for the float model. -/
def allDigits (cs : List Char) : Bool :=
  cs.all (fun c => c.isDigit)

/-- Value of a digit run. -/
def digitsToNat (cs : List Char) : Nat :=
  cs.foldl (fun n c => n * 10 + (c.toNat - 48)) 0

/-- Unsigned part of the Python float() literal parser, for plain decimal
literals (digits with an optional single decimal point, at least one digit
present); exponent, infinity and nan forms do not occur in the harvested
position strings and are out of scope.  The value of d1...dm.f1...fn is
the exact rational (d * 10^n + f) / 10^n. -/
def parseUnsignedFloat (s : String) : Option Rat :=
  match splitOnChar '.' s with
  | [ip] =>
      if ip ≠ "" ∧ allDigits ip.data then
        Option.some (mkRat (digitsToNat ip.data) 1)
      else Option.none
  | [ip, fp] =>
      if (ip ≠ "" ∨ fp ≠ "") ∧ allDigits ip.data ∧ allDigits fp.data then
        Option.some (mkRat
          (digitsToNat ip.data * 10 ^ fp.length + digitsToNat fp.data)
          (10 ^ fp.length))
      else Option.none
  | _ => Option.none

/-- Python float(s) on the whitespace-free tokens produced by split(),
returning none where float() would raise ValueError.  Real numbers are
modelled as rationals, which is exact on decimal literals. -/
def pyFloat (s : String) : Option Rat :=
  match s.data with
  | '-' :: rest => (parseUnsignedFloat (String.mk rest)).map (fun q => -q)
  | '+' :: rest => parseUnsignedFloat (String.mk rest)
  | _ => parseUnsignedFloat s

/-- Namespace table of get_namespaces (lines 19-23): the owslib prefix
table for sml, gml, xlink, swe plus the ism entry added by the source. -/
def get_namespaces : List (String × String) :=
  [("sml", "http://www.opengis.net/sensorML/1.0.1"),
   ("gml", "http://www.opengis.net/gml"),
   ("xlink", "http://www.w3.org/1999/xlink"),
   ("swe", "http://www.opengis.net/swe/1.0.1"),
   ("ism", "urn:us:gov:ic:ism:v2")]

/-- Module-level namespaces value (line 25). -/
def namespaces : List (String × String) := get_namespaces

/-- Qualified-name form used by ElementTree: the namespace URI in braces
followed by the local tag. -/
def qtag (pre loc : String) : String :=
  "\x7b" ++ ((pyLookup pre namespaces).getD "") ++ "\x7d" ++ loc

/-- Resolution of one prefix:tag path component, as owslib nspath_eval. -/
def nspComponent (c : String) : String :=
  match splitOnChar ':' c with
  | [p, t] => qtag p t
  | _ => c

/-- The nsp helper (lines 28-29): nspath_eval of a prefixed path against
the module namespaces.  The embedding returns the path already split at
the slashes, which is the form the findall model consumes; composing it
with Xml.findall is observationally the ElementTree query of the source. -/
def nsp (path : String) : List String :=
  (splitOnChar '/' path).map nspComponent

/-- Python exception kinds that the parsing pipeline can raise. -/
inductive PyErr : Type where
  | keyError (key : String)
  | indexError
  | attributeError
  | valueError
  | nameError
deriving DecidableEq

/-- Evaluation of an optional value that Python would have obtained by an
operation raising the given exception when absent. -/
def orThrow {α : Type} (o : Option α) (e : PyErr) : Except PyErr α :=
  match o with
  | Option.none => Except.error e
  | Option.some v => Except.ok v

deriving instance DecidableEq for Except

/-- True exactly when an Except value is a success. -/
def pyOk {α : Type} : Except PyErr α → Bool
  | Except.ok _ => true
  | Except.error _ => false

/-- Sequencing of a fallible step over each list element, stopping at the
first raised exception: the effect of a Python for loop or comprehension
whose body may raise. -/
def mapExcept {α β : Type} (f : α → Except PyErr β) : List α → Except PyErr (List β)
  | [] => Except.ok []
  | x :: xs =>
      match f x with
      | Except.error e => Except.error e
      | Except.ok y =>
          match mapExcept f xs with
          | Except.error e => Except.error e
          | Except.ok ys => Except.ok (y :: ys)

/-- Python dict assignment d[k] = v on an insertion-ordered association
list: the first entry with the key is replaced in place, otherwise the
pair is appended. -/
def dictSet {α : Type} : List (String × α) → String → α → List (String × α)
  | [], k, v => [(k, v)]
  | kv :: rest, k, v =>
      if kv.1 = k then (k, v) :: rest else kv :: dictSet rest k v

/-- Python dict subscript d[k], raising KeyError when the key is absent
(lines 101-103, 108-109). -/
def dictGet {α : Type} (d : List (String × α)) (k : String) : Except PyErr α :=
  orThrow (pyLookup k d) (PyErr.keyError k)

/-- Wall-clock timestamp as delivered by the external pyoos parser; the
datetime.isoformat rendering below is the only operation the source
applies to it. -/
structure PyDateTime where
  year : Nat
  month : Nat
  day : Nat
  hour : Nat
  minute : Nat
  second : Nat
deriving DecidableEq

/-- Zero-padded two-digit rendering. -/
def pad2 (n : Nat) : String :=
  if n < 10 then "0" ++ toString n else toString n

/-- Zero-padded four-digit year rendering. -/
def pad4 (n : Nat) : String :=
  if n < 10 then "000" ++ toString n
  else if n < 100 then "00" ++ toString n
  else if n < 1000 then "0" ++ toString n
  else toString n

/-- Python datetime.isoformat for a whole-second timestamp (lines 114-115). -/
def PyDateTime.isoformat (t : PyDateTime) : String :=
  pad4 t.year ++ "-" ++ pad2 t.month ++ "-" ++ pad2 t.day ++ "T" ++
    pad2 t.hour ++ ":" ++ pad2 t.minute ++ ":" ++ pad2 t.second

/-- Cell value of the output table: Python str, float, datetime or None. -/
inductive Value : Type where
  | str (s : String)
  | num (q : Rat)
  | time (t : PyDateTime)
  | none
deriving DecidableEq

/-- Conversion of an optional string into a table cell, None for absent. -/
def optV : Option String → Value
  | Option.some s => Value.str s
  | Option.none => Value.none

/-- Helper of owslib, testXMLValue: the stripped text of an element, or
none when the element is absent or empty (line 60). -/
def testXMLValue (el : Option Xml) : Option String :=
  el.bind (fun e => e.text)

/-- Ontology base URI imported from the external pyoos module
pyoos.parsers.ioos.one.describe_sensor (line 14). -/
def ont : String := "http://mmisw.org/ont/ioos/definition"

/-- Modelled from the spec: the external pyoos IoosDescribeSensor parser
output consumed on lines 58, 89-115; per section 9 of the design the
get_ioos_def dynamic lookup is a typed accessor over (category, key,
ontology), modelled by two association lists, and the remaining fields
(system location element, names, platform type, temporal extent) are the
parsed values the collaborator delivers. -/
structure IoosDescribeSensor where
  location : Xml
  shortName : Option String
  longName : Option String
  platformType : Option String
  identifiers : List (String × String)
  classifiers : List (String × String)
  starting : PyDateTime
  ending : PyDateTime

/-- Modelled from the spec: ds.get_ioos_def(name, defType, ont), the
typed accessor of section 9 returning an optional string for an
identifier or classifier keyed by its ontology name. -/
def IoosDescribeSensor.get_ioos_def (ds : IoosDescribeSensor)
    (name defType ontology : String) : Option String :=
  if defType = "identifier" ∧ ontology = ont then pyLookup name ds.identifiers
  else if defType = "classifier" ∧ ontology = ont then pyLookup name ds.classifiers
  else Option.none

/-- Modelled from the spec: the transient Contact entity of section 3 as
built by the external owslib Contact wrapper from one contact member
element: a role URI plus optional organization, country and url. -/
structure Contact where
  role : Option String
  organization : Option String
  country : Option String
  url : Option String
deriving DecidableEq

/-- Modelled from the spec: construction of a Contact from one
sml:contact/sml:ContactList/sml:member element (line 76); the role URI is
the xlink:role attribute of the member, and organization, country and url
come from the nested ResponsibleParty content. -/
def Contact.ofMember (e : Xml) : Contact :=
  { role := e.attr (qtag "xlink" "role"),
    organization := testXMLValue (e.find (nsp "sml:ResponsibleParty/sml:organizationName")),
    country := testXMLValue
      (e.find (nsp "sml:ResponsibleParty/sml:contactInfo/sml:address/sml:country")),
    url := (e.find (nsp "sml:ResponsibleParty/sml:contactInfo/sml:onlineResource")).bind
      (fun o => o.attr (qtag "xlink" "href")) }

/-- Modelled from the spec: the transient DocumentLink entity of section 3,
a single optional url per document entry. -/
structure DocumentLink where
  url : Option String
deriving DecidableEq

/-- Modelled from the spec: the external owslib Documentation wrapper built
from one DocumentList member (line 68); its documents are the sml:Document
children, each contributing the xlink:href of its onlineResource. -/
def documentation_documents (e : Xml) : List DocumentLink :=
  (e.findall (nsp "sml:Document")).map (fun d =>
    { url := (d.find (nsp "sml:onlineResource")).bind
        (fun o => o.attr (qtag "xlink" "href")) })

/-- One fetched SensorML response: the document root (sml underscore root
in the source) together with the external IoosDescribeSensor parse of that
root (line 58).  The network fetch that produces it (DescribeSensor or the
batch metadata call, lines 47 and 52-56) is an external collaborator. -/
structure SmlDoc where
  root : Xml
  ds : IoosDescribeSensor

/-- Position string of the station (line 60): text of the
gml:Point/gml:pos element under the system location. -/
def pos_of (ds : IoosDescribeSensor) : Option String :=
  testXMLValue (ds.location.find (nsp "gml:Point/gml:pos"))

/-- System element selection (line 62): the first sml:member of the root
(IndexError when there is none) and its sml:System child; a missing
System yields None whose later use raises AttributeError. -/
def system_el_of (root : Xml) : Except PyErr Xml :=
  match (root.findall (nsp "sml:member")).head? with
  | Option.none => Except.error PyErr.indexError
  | Option.some m => orThrow (m.find (nsp "sml:System")) PyErr.attributeError

/-- Documentation extraction (lines 64-71): all DocumentList members are
collected; with none present the webpage url is None and no error is
raised; otherwise only the first member is read and the url of its first
document is taken, an empty document list raising IndexError. -/
def webpage_url_of (system_el : Xml) : Except PyErr (Option String) :=
  let documents := system_el.findall (nsp "sml:documentation/sml:DocumentList/sml:member")
  match documents.head? with
  | Option.none => Except.ok Option.none
  | Option.some m =>
      match (documentation_documents m).head? with
      | Option.none => Except.error PyErr.indexError
      | Option.some d => Except.ok d.url

/-- Contact dictionary loop body (lines 75-78): each member becomes a
Contact, its role key is the last slash segment of the role URI (an
absent role raises AttributeError at the split call), and the dict
assignment overwrites any earlier contact with the same key. -/
def contactsFold : List (String × Contact) → List Xml → Except PyErr (List (String × Contact))
  | dct, [] => Except.ok dct
  | dct, c :: cs =>
      match (Contact.ofMember c).role with
      | Option.none => Except.error PyErr.attributeError
      | Option.some r =>
          contactsFold (dictSet dct (lastSlashSeg r) (Contact.ofMember c)) cs

/-- Contacts dictionary (lines 73-78): fold of the dict assignment over
all sml:contact/sml:ContactList/sml:member elements in document order. -/
def contacts_dct_of (system_el : Xml) : Except PyErr (List (String × Contact)) :=
  contactsFold [] (system_el.findall (nsp "sml:contact/sml:ContactList/sml:member"))

/-- Role key a member element derives, when its Contact has a role URI. -/
def roleKeyOf (c : Xml) : Option String :=
  ((Contact.ofMember c).role).map lastSlashSeg

/-- Output quantity definition URIs (lines 80-81): the definition
attribute of every swe:Quantity under the outputs list, in document
order; a missing attribute raises KeyError at the subscript. -/
def quant_lst_of (system_el : Xml) : Except PyErr (List String) :=
  mapExcept (fun q => orThrow (q.attr "definition") (PyErr.keyError "definition"))
    (system_el.findall (nsp "sml:outputs/sml:OutputList/sml:output/swe:Quantity"))

/-- Station record assembly (lines 84-118): the ordered dict of the
source, one key per line in source order, with optional strings rendered
as explicit None cells and the parameter lists joined by commas. -/
def station_record (station_urn : String) (ds : IoosDescribeSensor)
    (lon lat : Rat) (webpage_url : Option String)
    (operatorContact publisherContact : Contact)
    (quant_lst : List String) : List (String × Value) :=
  [("station_urn", Value.str station_urn),
   ("lon", Value.num lon),
   ("lat", Value.num lat),
   ("shortName", optV ds.shortName),
   ("longName", optV ds.longName),
   ("wmoID", optV (ds.get_ioos_def ("wmoID") "identifier" ont)),
   ("platformType", optV ds.platformType),
   ("parentNetwork", optV (ds.get_ioos_def ("parentNetwork") "classifier" ont)),
   ("sponsor", optV (ds.get_ioos_def ("sponsor") "classifier" ont)),
   ("webpage_url", optV webpage_url),
   ("operatorSector", optV (ds.get_ioos_def ("operatorSector") "classifier" ont)),
   ("operator_org", optV operatorContact.organization),
   ("operator_country", optV operatorContact.country),
   ("operator_url", optV operatorContact.url),
   ("publisher", optV (ds.get_ioos_def ("publisher") "classifier" ont)),
   ("publisher_org", optV publisherContact.organization),
   ("publisher_url", optV publisherContact.url),
   ("starting", Value.time ds.starting),
   ("ending", Value.time ds.ending),
   ("starting_isostr", Value.str ds.starting.isoformat),
   ("ending_isostr", Value.str ds.ending.isoformat),
   ("parameter_uris", Value.str (pyJoinComma quant_lst)),
   ("parameters", Value.str (pyJoinComma (quant_lst.map lastSlashSeg)))]

/-- Per-station loop body (lines 58-120): the parse of one fetched
SensorML document into one station record, raising in the order the
source statements execute: member/System selection, documentation,
contacts, quantity definitions, then position tokenisation and float
conversion for lon (second token) and lat (first token), then the
required operator and publisher role lookups. -/
def build_station (station_urn : String) (sml : SmlDoc) : Except PyErr (List (String × Value)) := do
  let system_el ← system_el_of sml.root
  let webpage_url ← webpage_url_of system_el
  let contacts_dct ← contacts_dct_of system_el
  let quant_lst ← quant_lst_of system_el
  let pos ← orThrow (pos_of sml.ds) PyErr.attributeError
  let lonTok ← orThrow (pySplit pos)[1]? PyErr.indexError
  let lon ← orThrow (pyFloat lonTok) PyErr.valueError
  let latTok ← orThrow (pySplit pos)[0]? PyErr.indexError
  let lat ← orThrow (pyFloat latTok) PyErr.valueError
  let operatorContact ← dictGet contacts_dct "operator"
  let publisherContact ← dictGet contacts_dct "publisher"
  Except.ok (station_record station_urn sml.ds lon lat webpage_url
    operatorContact publisherContact quant_lst)

/-- Canonical ordered column list: the key set of every station record,
in the fixed order of lines 84-118, which is also the field order of
section 3 of the design. -/
def stationFields : List String :=
  ["station_urn", "lon", "lat", "shortName", "longName", "wmoID",
   "platformType", "parentNetwork", "sponsor", "webpage_url",
   "operatorSector", "operator_org", "operator_country", "operator_url",
   "publisher", "publisher_org", "publisher_url", "starting", "ending",
   "starting_isostr", "ending_isostr", "parameter_uris", "parameters"]

/-- Output table: ordered columns, one cell row per record, and a row
index. -/
structure DataFrame where
  columns : List String
  rows : List (List Value)
  index : List Value
deriving DecidableEq

/-- pandas DataFrame.from_records(recs, columns) (line 122): each record
is projected onto the given columns in order, missing keys becoming null
cells; the initial index is the default integer range. -/
def DataFrame.from_records (recs : List (List (String × Value))) (cols : List String) : DataFrame :=
  { columns := cols,
    rows := recs.map (fun r => cols.map (fun c => (pyLookup c r).getD Value.none)),
    index := (List.range recs.length).map (fun i => Value.num (mkRat i 1)) }

/-- Column selection df[name] (line 123): per row, the cell in the named
column. -/
def DataFrame.col (df : DataFrame) (name : String) : List Value :=
  df.rows.map (fun row => (pyLookup name (df.columns.zip row)).getD Value.none)

/-- Default station list (lines 43-45): the offering names of the
capabilities response, keeping those whose colon-split pieces do not
contain the string network.  The offerings enumeration itself is the
external StationIdentifierSource collaborator. -/
def default_station_urns (offerings : List String) : List String :=
  offerings.filter (fun name => !((splitOnChar ':' name).contains "network"))

/-- Harvest pipeline (lines 49-125) over the per-station documents the
external fetcher returns: every station URN is parsed into a record; the
records become a DataFrame whose columns are the keys of the loop
variable left over from the last iteration (line 122) - so an empty
station list leaves that variable unbound and raises NameError - and the
row index is then set to the station_urn column (line 123). -/
def get_stations_df (stations : List (String × SmlDoc)) : Except PyErr DataFrame := do
  let station_recs ← mapExcept (fun s => build_station s.1 s.2) stations
  match station_recs.getLast? with
  | Option.none => Except.error PyErr.nameError
  | Option.some station =>
      let df := DataFrame.from_records station_recs (station.map Prod.fst)
      Except.ok { df with index := df.col "station_urn" }

/-- Documentation subtree of the synthetic test document: one
DocumentList with one member holding one Document whose onlineResource
links the station webpage. -/
def sampleDocMember : Xml :=
  Xml.mk (qtag "sml" "member") [] Option.none
    [Xml.mk (qtag "sml" "Document") [] Option.none
      [Xml.mk (qtag "sml" "onlineResource")
        [(qtag "xlink" "href", "http://example.org/station")] Option.none []]]

/-- Documentation element wrapping the sample member. -/
def sampleDocumentation : Xml :=
  Xml.mk (qtag "sml" "documentation") [] Option.none
    [Xml.mk (qtag "sml" "DocumentList") [] Option.none [sampleDocMember]]

/-- Contact member with the given role URI and organization name. -/
def mkContactMember (roleUri orgName : String) : Xml :=
  Xml.mk (qtag "sml" "member") [(qtag "xlink" "role", roleUri)] Option.none
    [Xml.mk (qtag "sml" "ResponsibleParty") [] Option.none
      [Xml.mk (qtag "sml" "organizationName") [] (Option.some orgName) []]]

/-- Contact list subtree with one operator and one publisher. -/
def sampleContacts : Xml :=
  Xml.mk (qtag "sml" "contact") [] Option.none
    [Xml.mk (qtag "sml" "ContactList") [] Option.none
      [mkContactMember (ont ++ "/operator") "NANOOS",
       mkContactMember (ont ++ "/publisher") "PNW Publisher"]]

/-- Outputs subtree with a single declared quantity. -/
def sampleOutputs : Xml :=
  Xml.mk (qtag "sml" "outputs") [] Option.none
    [Xml.mk (qtag "sml" "OutputList") [] Option.none
      [Xml.mk (qtag "sml" "output") [] Option.none
        [Xml.mk (qtag "swe" "Quantity")
          [("definition", "http://mmisw.org/ont/cf/parameter/air_temperature")]
          Option.none []]]]

/-- System element of the synthetic document. -/
def sampleSystemEl : Xml :=
  Xml.mk (qtag "sml" "System") [] Option.none
    [sampleDocumentation, sampleContacts, sampleOutputs]

/-- Root of the synthetic document: one member holding the System. -/
def sampleRoot : Xml :=
  Xml.mk "root" [] Option.none
    [Xml.mk (qtag "sml" "member") [] Option.none [sampleSystemEl]]

/-- Location element with the position of the section 8 example. -/
def sampleLocation : Xml :=
  Xml.mk "location" [] Option.none
    [Xml.mk (qtag "gml" "Point") [] Option.none
      [Xml.mk (qtag "gml" "pos") [] (Option.some "34.5 -120.3") []]]

/-- External parser output for the synthetic document. -/
def sampleDs : IoosDescribeSensor :=
  { location := sampleLocation,
    shortName := Option.some "stn1",
    longName := Option.some "Station One",
    platformType := Option.some "buoy",
    identifiers := [("wmoID", "41001")],
    classifiers := [("parentNetwork", "NANOOS"), ("sponsor", "NSF"),
                    ("operatorSector", "academic"), ("publisher", "NANOOS")],
    starting := { year := 2010, month := 1, day := 2, hour := 3, minute := 4, second := 5 },
    ending := { year := 2011, month := 11, day := 12, hour := 13, minute := 14, second := 15 } }

/-- The synthetic fetched document. -/
def sampleDoc : SmlDoc := { root := sampleRoot, ds := sampleDs }

/-- URN used with the synthetic document. -/
def sampleUrn : String := "urn:ioos:station:nanoos:s1"

/-- The record the pipeline builds for the synthetic document. -/
def sampleRec : List (String × Value) :=
  match build_station sampleUrn sampleDoc with
  | Except.ok r => r
  | Except.error _ => []

/-- Variant system with a publisher contact but no operator contact. -/
def noOperatorSystemEl : Xml :=
  Xml.mk (qtag "sml" "System") [] Option.none
    [sampleDocumentation,
     Xml.mk (qtag "sml" "contact") [] Option.none
       [Xml.mk (qtag "sml" "ContactList") [] Option.none
         [mkContactMember (ont ++ "/publisher") "PNW Publisher"]],
     sampleOutputs]

/-- Document variant lacking any operator contact. -/
def noOperatorDoc : SmlDoc :=
  { root := Xml.mk "root" [] Option.none
      [Xml.mk (qtag "sml" "member") [] Option.none [noOperatorSystemEl]],
    ds := sampleDs }

/-- Second and first operator members used to exercise the duplicate-role
overwrite. -/
def operatorMemberA : Xml := mkContactMember (ont ++ "/operator") "First Operator Org"

/-- Later operator member, sharing the role key of operatorMemberA. -/
def operatorMemberB : Xml := mkContactMember (ont ++ "/operator") "Second Operator Org"

/-- System whose contact list declares the operator role twice. -/
def twoOperatorSystemEl : Xml :=
  Xml.mk (qtag "sml" "System") [] Option.none
    [Xml.mk (qtag "sml" "contact") [] Option.none
      [Xml.mk (qtag "sml" "ContactList") [] Option.none
        [operatorMemberA, operatorMemberB,
         mkContactMember (ont ++ "/publisher") "Pub Org"]]]

/-- Contacts dictionary built from the two-operator system. -/
def twoOperatorDct : List (String × Contact) :=
  match contacts_dct_of twoOperatorSystemEl with
  | Except.ok d => d
  | Except.error _ => []

/-- System with no documentation element at all. -/
def noDocsSystemEl : Xml :=
  Xml.mk (qtag "sml" "System") [] Option.none [sampleContacts, sampleOutputs]

/-- Contacts dictionary of the no-operator system. -/
def noOperatorDct : List (String × Contact) :=
  match contacts_dct_of noOperatorSystemEl with
  | Except.ok d => d
  | Except.error _ => []

/-- First URN of the two-station assembly scenarios. -/
def sampleUrnA : String := "urn:ioos:station:nanoos:a"

/-- Second URN of the two-station assembly scenarios. -/
def sampleUrnB : String := "urn:ioos:station:nanoos:b"

/-- Record built for the synthetic document under the first URN. -/
def sampleRecA : List (String × Value) :=
  match build_station sampleUrnA sampleDoc with
  | Except.ok r => r
  | Except.error _ => []

/-- Record built for the synthetic document under the second URN. -/
def sampleRecB : List (String × Value) :=
  match build_station sampleUrnB sampleDoc with
  | Except.ok r => r
  | Except.error _ => []

/-- Table assembled from the two distinct-URN stations. -/
def sampleDf : DataFrame :=
  match get_stations_df [(sampleUrnA, sampleDoc), (sampleUrnB, sampleDoc)] with
  | Except.ok df => df
  | Except.error _ => { columns := [], rows := [], index := [] }

/-- Row count of a harvest result, when it succeeded. -/
def resultRowCount (e : Except PyErr DataFrame) : Option Nat :=
  match e with
  | Except.ok df => Option.some df.rows.length
  | Except.error _ => Option.none

/-- Index of a harvest result, when it succeeded. -/
def resultIndex (e : Except PyErr DataFrame) : Option (List Value) :=
  match e with
  | Except.ok df => Option.some df.index
  | Except.error _ => Option.none

/-!  Helper lemmas about the Except-monad plumbing of the embedding. -/

@[simp]
theorem except_bind_ok {ε α β : Type} (a : Except ε α) (f : α → Except ε β) (r : β) :
    (a >>= f = Except.ok r) ↔ ∃ v, a = Except.ok v ∧ f v = Except.ok r := by
  cases a <;> simp [Bind.bind, Except.bind]

@[simp]
theorem except_ok_bind {ε α β : Type} (v : α) (f : α → Except ε β) :
    (Except.ok v : Except ε α) >>= f = f v := rfl

@[simp]
theorem orThrow_ok {α : Type} (o : Option α) (e : PyErr) (v : α) :
    orThrow o e = Except.ok v ↔ o = Option.some v := by
  cases o <;> simp [orThrow]

@[simp]
theorem dictGet_ok {α : Type} (d : List (String × α)) (k : String) (v : α) :
    dictGet d k = Except.ok v ↔ pyLookup k d = Option.some v := by
  simp [dictGet]

theorem mapExcept_ok_iff {α β : Type} (f : α → Except PyErr β) (xs : List α) :
    ∀ ys : List β, mapExcept f xs = Except.ok ys ↔
      List.Forall₂ (fun x y => f x = Except.ok y) xs ys := by
  induction xs with
  | nil =>
      intro ys
      simp [mapExcept, List.forall₂_nil_left_iff, eq_comm]
  | cons x xs ih =>
      intro ys
      cases hfx : f x with
      | error e => simp [mapExcept, hfx, List.forall₂_cons_left_iff]
      | ok y =>
          cases hm : mapExcept f xs with
          | error e =>
              simp only [mapExcept, hfx, hm, List.forall₂_cons_left_iff]
              constructor
              · intro h; cases h
              · rintro ⟨b, u, hb, hu, rfl⟩
                rw [← ih] at hu
                rw [hm] at hu
                cases hu
          | ok zs =>
              simp only [mapExcept, hfx, hm, List.forall₂_cons_left_iff, Except.ok.injEq]
              constructor
              · rintro rfl
                exact ⟨y, zs, rfl, (ih zs).mp hm, rfl⟩
              · rintro ⟨b, u, hb, hu, rfl⟩
                cases hb
                rw [← ih] at hu
                rw [hm] at hu
                cases hu
                rfl

theorem lookup_dictSet {α : Type} (d : List (String × α)) (k k' : String) (v : α) :
    pyLookup k' (dictSet d k v) = if k' = k then Option.some v else pyLookup k' d := by
  induction d with
  | nil =>
      by_cases h : k' = k
      · simp [dictSet, pyLookup, h]
      · have h' : ¬ k = k' := fun hh => h hh.symm
        simp [dictSet, pyLookup, h, h']
  | cons kv rest ih =>
      by_cases h1 : kv.1 = k
      · by_cases h2 : k' = k
        · subst h2
          simp [dictSet, pyLookup, h1]
        · have h2' : ¬ k = k' := fun hh => h2 hh.symm
          have h3 : ¬ kv.1 = k' := by rw [h1]; exact h2'
          simp [dictSet, pyLookup, h1, h2, h2', h3]
      · by_cases h2 : k' = k
        · subst h2
          simp [dictSet, pyLookup, h1, ih]
        · by_cases h3 : kv.1 = k'
          · simp [dictSet, pyLookup, h1, h3, h2]
          · simp [dictSet, pyLookup, h1, h3, h2, ih]

theorem keys_dictSet {α : Type} (d : List (String × α)) (k : String) (v : α) :
    (dictSet d k v).map Prod.fst =
      if k ∈ d.map Prod.fst then d.map Prod.fst else d.map Prod.fst ++ [k] := by
  induction d with
  | nil => simp [dictSet]
  | cons kv rest ih =>
      by_cases h1 : kv.1 = k
      · simp [dictSet, h1]
      · have h1' : ¬ k = kv.1 := fun hh => h1 hh.symm
        by_cases h2 : k ∈ rest.map Prod.fst
        · simp [dictSet, h1, h1', h2, ih]
        · simp [dictSet, h1, h1', h2, ih]

theorem nodup_keys_dictSet {α : Type} (d : List (String × α)) (k : String) (v : α)
    (hd : (d.map Prod.fst).Nodup) : ((dictSet d k v).map Prod.fst).Nodup := by
  rw [keys_dictSet]
  by_cases h : k ∈ d.map Prod.fst
  · simpa [h] using hd
  · simp only [h, if_false, ite_false]
    simp [List.nodup_append, hd, h]

theorem contactsFold_nodup (cs : List Xml) :
    ∀ d out, contactsFold d cs = Except.ok out →
      (d.map Prod.fst).Nodup → (out.map Prod.fst).Nodup := by
  induction cs with
  | nil =>
      intro d out h hd
      simp only [contactsFold, Except.ok.injEq] at h
      subst h
      exact hd
  | cons c cs ih =>
      intro d out h hd
      cases hr : (Contact.ofMember c).role with
      | none => simp [contactsFold, hr] at h
      | some r =>
          simp only [contactsFold, hr] at h
          exact ih _ _ h (nodup_keys_dictSet _ _ _ hd)

theorem contactsFold_append (cs : List Xml) :
    ∀ (d : List (String × Contact)) (c : Xml),
      contactsFold d (cs ++ [c]) =
        (contactsFold d cs).bind (fun out => contactsFold out [c]) := by
  induction cs with
  | nil => intro d c; simp [contactsFold, Except.bind]
  | cons x xs ih =>
      intro d c
      cases hr : (Contact.ofMember x).role with
      | none => simp [contactsFold, hr, Except.bind]
      | some r => simp [contactsFold, hr, ih, Except.bind]

theorem contactsFold_ok_lookup (cs : List Xml) :
    ∀ (d out : List (String × Contact)), contactsFold d cs = Except.ok out →
      ∀ k : String,
        pyLookup k out =
          match (cs.filter (fun c => decide (roleKeyOf c = Option.some k))).getLast? with
          | Option.some c => Option.some (Contact.ofMember c)
          | Option.none => pyLookup k d := by
  induction cs using List.reverseRecOn with
  | nil =>
      intro d out h k
      simp only [contactsFold, Except.ok.injEq] at h
      subst h
      simp
  | append_singleton cs c ih =>
      intro d out h k
      rw [contactsFold_append] at h
      cases hmid : contactsFold d cs with
      | error e => rw [hmid] at h; simp [Except.bind] at h
      | ok mid =>
          rw [hmid] at h
          simp only [Except.bind] at h
          cases hr : (Contact.ofMember c).role with
          | none => simp [contactsFold, hr] at h
          | some r =>
              simp only [contactsFold, hr, Except.ok.injEq] at h
              subst h
              rw [List.filter_append]
              by_cases hk : lastSlashSeg r = k
              · have hfc : List.filter (fun c' => decide (roleKeyOf c' = Option.some k)) [c] =
                    [c] := by
                  simp [roleKeyOf, hr, hk]
                rw [hfc, List.getLast?_concat]
                simp [lookup_dictSet, hk]
              · have hfc : List.filter (fun c' => decide (roleKeyOf c' = Option.some k)) [c] =
                    [] := by
                  simp [roleKeyOf, hr, hk]
                rw [hfc, List.append_nil, lookup_dictSet, if_neg (fun hh => hk hh.symm)]
                exact ih d mid hmid k

theorem build_station_ok {urn : String} {sml : SmlDoc} {r : List (String × Value)}
    (h : build_station urn sml = Except.ok r) :
    ∃ system_el webpage_url contacts_dct quant_lst pos lonTok lon latTok lat opC pubC,
      system_el_of sml.root = Except.ok system_el ∧
      webpage_url_of system_el = Except.ok webpage_url ∧
      contacts_dct_of system_el = Except.ok contacts_dct ∧
      quant_lst_of system_el = Except.ok quant_lst ∧
      pos_of sml.ds = Option.some pos ∧
      (pySplit pos)[1]? = Option.some lonTok ∧
      pyFloat lonTok = Option.some lon ∧
      (pySplit pos)[0]? = Option.some latTok ∧
      pyFloat latTok = Option.some lat ∧
      pyLookup "operator" contacts_dct = Option.some opC ∧
      pyLookup "publisher" contacts_dct = Option.some pubC ∧
      r = station_record urn sml.ds lon lat webpage_url opC pubC quant_lst := by
  simp only [build_station, except_bind_ok, orThrow_ok, dictGet_ok, Except.ok.injEq] at h
  obtain ⟨se, h1, wp, h2, dct, h3, qs, h4, p, h5, lt1, h6, lo, h7, lt0, h8, la, h9,
    oc, h10, pc, h11, h12⟩ := h
  exact ⟨se, wp, dct, qs, p, lt1, lo, lt0, la, oc, pc,
    h1, h2, h3, h4, h5, h6, h7, h8, h9, h10, h11, h12.symm⟩

theorem build_station_ok_fields {urn : String} {sml : SmlDoc} {r : List (String × Value)}
    (h : build_station urn sml = Except.ok r) : r.map Prod.fst = stationFields := by
  obtain ⟨se, wp, dct, qs, p, lt1, lo, lt0, la, oc, pc, _, _, _, _, _, _, _, _, _, _, _, hr⟩ :=
    build_station_ok h
  subst hr
  rfl

theorem build_station_ok_urn {urn : String} {sml : SmlDoc} {r : List (String × Value)}
    (h : build_station urn sml = Except.ok r) :
    pyLookup "station_urn" r = Option.some (Value.str urn) := by
  obtain ⟨se, wp, dct, qs, p, lt1, lo, lt0, la, oc, pc, _, _, _, _, _, _, _, _, _, _, _, hr⟩ :=
    build_station_ok h
  subst hr
  rfl

theorem zip_station_urn (r : List (String × Value)) :
    pyLookup "station_urn"
      (stationFields.zip (stationFields.map (fun c => (pyLookup c r).getD Value.none))) =
    Option.some ((pyLookup "station_urn" r).getD Value.none) := rfl

theorem mem_of_getLast?_eq {α : Type} {l : List α} {a : α}
    (h : l.getLast? = Option.some a) : a ∈ l := by
  obtain ⟨hne, hx⟩ := List.mem_getLast?_eq_getLast (Option.mem_def.mpr h)
  subst hx
  exact List.getLast_mem hne

theorem forall2_exists_left {α β : Type} {R : α → β → Prop} :
    ∀ {as : List α} {bs : List β}, List.Forall₂ R as bs → ∀ b ∈ bs, ∃ a ∈ as, R a b := by
  intro as bs h
  induction h with
  | nil => intro b hb; cases hb
  | cons hr ht ih =>
      intro b hb
      cases hb with
      | head => exact ⟨_, List.mem_cons_self _ _, hr⟩
      | tail _ hb =>
          obtain ⟨a, ha, hra⟩ := ih b hb
          exact ⟨a, List.mem_cons_of_mem _ ha, hra⟩

theorem get_stations_df_ok {stations : List (String × SmlDoc)} {df : DataFrame}
    (h : get_stations_df stations = Except.ok df) :
    ∃ recs last,
      mapExcept (fun s => build_station s.1 s.2) stations = Except.ok recs ∧
      recs.getLast? = Option.some last ∧
      df.columns = last.map Prod.fst ∧
      df.rows = recs.map (fun r => df.columns.map (fun c => (pyLookup c r).getD Value.none)) ∧
      df.index = df.rows.map (fun row =>
        (pyLookup "station_urn" (df.columns.zip row)).getD Value.none) := by
  simp only [get_stations_df, except_bind_ok] at h
  obtain ⟨recs, hm, h2⟩ := h
  cases hl : recs.getLast? with
  | none => rw [hl] at h2; simp at h2
  | some last =>
      rw [hl] at h2
      simp only [DataFrame.from_records, DataFrame.col, Except.ok.injEq] at h2
      subst h2
      exact ⟨recs, last, hm, hl, rfl, rfl, rfl⟩

theorem index_of_records {stations : List (String × SmlDoc)}
    {recs : List (List (String × Value))}
    (h : List.Forall₂ (fun s r => build_station s.1 s.2 = Except.ok r) stations recs) :
    (recs.map (fun r => stationFields.map (fun c => (pyLookup c r).getD Value.none))).map
      (fun row => (pyLookup "station_urn" (stationFields.zip row)).getD Value.none) =
      stations.map (fun s => Value.str s.1) := by
  induction h with
  | nil => rfl
  | cons hr ht ih =>
      simp only [List.map_cons, ih]
      rw [zip_station_urn, build_station_ok_urn hr]
      rfl

/-- C2: for every station whose position text splits into two tokens
accepted by float(), the first token becomes the lat field of the built
record and the second token the lon field, preserving that source order
whatever the values are. -/
theorem position_lat_lon_order (urn : String) (sml : SmlDoc) (r : List (String × Value))
    (p t0 t1 : String) (a b : Rat)
    (h : build_station urn sml = Except.ok r)
    (hp : pos_of sml.ds = Option.some p)
    (hs : pySplit p = [t0, t1])
    (h0 : pyFloat t0 = Option.some a)
    (h1 : pyFloat t1 = Option.some b) :
    pyLookup "lat" r = Option.some (Value.num a) ∧
    pyLookup "lon" r = Option.some (Value.num b) := by
  obtain ⟨se, wp, dct, qs, p', lt1, lo, lt0, la, oc, pc,
    _, _, _, _, hp', h6, h7, h8, h9, _, _, hr⟩ := build_station_ok h
  rw [hp] at hp'
  obtain rfl : p = p' := Option.some.inj hp'
  rw [hs] at h6 h8
  obtain rfl : t1 = lt1 := Option.some.inj h6
  obtain rfl : t0 = lt0 := Option.some.inj h8
  rw [h1] at h7
  obtain rfl : b = lo := Option.some.inj h7
  rw [h0] at h9
  obtain rfl : a = la := Option.some.inj h9
  subst hr
  exact ⟨rfl, rfl⟩

/-- C2 witness: the section 8 example, pos 34.5 -120.3, yields
lat = 34.5 and lon = -120.3 in the built record. -/
theorem position_lat_lon_order_witness :
    pyLookup "lat" sampleRec = Option.some (Value.num (mkRat 69 2)) ∧
    pyLookup "lon" sampleRec = Option.some (Value.num (-(mkRat 1203 10))) :=
  position_lat_lon_order sampleUrn sampleDoc sampleRec "34.5 -120.3" "34.5" "-120.3"
    (mkRat 69 2) (-(mkRat 1203 10)) (by decide) (by decide) (by decide) (by decide) (by decide)

/-- C4: a document whose contact dictionary lacks the operator role key
or the publisher role key cannot build a station record - the pipeline
fails rather than defaulting the missing required contact. -/
theorem missing_required_role_fatal (urn : String) (sml : SmlDoc) (system_el : Xml)
    (dct : List (String × Contact))
    (h1 : system_el_of sml.root = Except.ok system_el)
    (h2 : contacts_dct_of system_el = Except.ok dct)
    (h3 : pyLookup "operator" dct = Option.none ∨ pyLookup "publisher" dct = Option.none) :
    pyOk (build_station urn sml) = false := by
  cases hb : build_station urn sml with
  | error e => rfl
  | ok r =>
      exfalso
      obtain ⟨se, wp, dct', qs, p, lt1, lo, lt0, la, oc, pc,
        g1, g2, g3, g4, _, _, _, _, _, g10, g11, _⟩ := build_station_ok hb
      rw [h1] at g1
      obtain rfl : system_el = se := Except.ok.inj g1
      rw [h2] at g3
      obtain rfl : dct = dct' := Except.ok.inj g3
      cases h3 with
      | inl hno => rw [hno] at g10; cases g10
      | inr hno => rw [hno] at g11; cases g11

/-- C4 witness: the no-operator document fails with KeyError operator. -/
theorem missing_required_role_fatal_witness :
    pyOk (build_station sampleUrn noOperatorDoc) = false ∧
    build_station sampleUrn noOperatorDoc = Except.error (PyErr.keyError "operator") := by
  constructor
  · exact missing_required_role_fatal sampleUrn noOperatorDoc noOperatorSystemEl
      noOperatorDct rfl rfl (Or.inl (by decide))
  · decide

/-- C5: documentation extraction policy - a document with zero
DocumentList members yields a null webpage url and no error, and a
document with members takes exactly the url of the first document of the
first member, ignoring all later lists and entries. -/
theorem webpage_url_first_document (el : Xml) :
    (el.findall (nsp "sml:documentation/sml:DocumentList/sml:member") = [] →
      webpage_url_of el = Except.ok Option.none) ∧
    (∀ m ms, el.findall (nsp "sml:documentation/sml:DocumentList/sml:member") = m :: ms →
      ∀ d ds2, documentation_documents m = d :: ds2 →
        webpage_url_of el = Except.ok d.url) := by
  constructor
  · intro h
    simp [webpage_url_of, h]
  · intro m ms hm d ds2 hd
    simp [webpage_url_of, hm, hd]

/-- C5 witness: the no-documentation system yields a null webpage url,
and the sample system yields the url of its single document. -/
theorem webpage_url_first_document_witness :
    webpage_url_of noDocsSystemEl = Except.ok Option.none ∧
    webpage_url_of sampleSystemEl = Except.ok (Option.some "http://example.org/station") := by
  constructor
  · exact (webpage_url_first_document noDocsSystemEl).1 rfl
  · exact (webpage_url_first_document sampleSystemEl).2 sampleDocMember [] rfl
      { url := Option.some "http://example.org/station" } [] rfl

/-- C9: the parse and assembly pipeline is deterministic - two runs over
the same fetched documents produce identical outputs, record for record
and table for table. -/
theorem pipeline_deterministic (stations1 stations2 : List (String × SmlDoc))
    (h : stations1 = stations2) :
    get_stations_df stations1 = get_stations_df stations2 ∧
    ∀ urn sml, build_station urn sml = build_station urn sml := by
  subst h
  exact ⟨rfl, fun _ _ => rfl⟩

/-- C9 witness: two runs on the synthetic single-station harvest agree. -/
theorem pipeline_deterministic_witness :
    get_stations_df [(sampleUrn, sampleDoc)] = get_stations_df [(sampleUrn, sampleDoc)] :=
  (pipeline_deterministic [(sampleUrn, sampleDoc)] [(sampleUrn, sampleDoc)] rfl).1

/-- C10: with an empty station list the harvest raises an error (the
record variable the column extraction needs is never bound, the NameError
of the source) instead of returning an empty zero-row table. -/
theorem empty_station_list_error : get_stations_df [] = Except.error PyErr.nameError := rfl

/-- C3: the role to Contact dictionary built from a document has unique
keys, and the contact retained under each role key is the one derived
from the last member in document order carrying that key - later
contacts silently overwrite earlier ones, deterministically. -/
theorem contacts_role_last_wins (system_el : Xml) (dct : List (String × Contact))
    (h : contacts_dct_of system_el = Except.ok dct) :
    (dct.map Prod.fst).Nodup ∧
    ∀ k : String,
      pyLookup k dct =
        (((system_el.findall (nsp "sml:contact/sml:ContactList/sml:member")).filter
          (fun c => decide (roleKeyOf c = Option.some k))).getLast?).map Contact.ofMember := by
  constructor
  · exact contactsFold_nodup _ [] dct h (by simp)
  · intro k
    rw [contactsFold_ok_lookup _ [] dct h k]
    cases hx : ((system_el.findall (nsp "sml:contact/sml:ContactList/sml:member")).filter
        (fun c => decide (roleKeyOf c = Option.some k))).getLast? with
    | none => rfl
    | some c => rfl

/-- C3 witness: with two operator members the dictionary keeps exactly
one operator entry, the later member's contact, and its keys are
duplicate free. -/
theorem contacts_role_last_wins_witness :
    (twoOperatorDct.map Prod.fst).Nodup ∧
    pyLookup "operator" twoOperatorDct = Option.some (Contact.ofMember operatorMemberB) := by
  have h := contacts_role_last_wins twoOperatorSystemEl twoOperatorDct rfl
  refine ⟨h.1, ?_⟩
  rw [h.2 "operator"]
  decide

/-- C6: the parameter uri list and the short-name list agree in length
and index-for-index (each name is the last slash segment of its uri),
both follow the document encounter order of the swe:Quantity elements,
and the built record stores their comma joins in that order. -/
theorem parameter_lists_aligned (urn : String) (sml : SmlDoc) (r : List (String × Value))
    (system_el : Xml) (qs : List String)
    (hb : build_station urn sml = Except.ok r)
    (hel : system_el_of sml.root = Except.ok system_el)
    (hq : quant_lst_of system_el = Except.ok qs) :
    (qs.map lastSlashSeg).length = qs.length ∧
    qs.length =
      (system_el.findall (nsp "sml:outputs/sml:OutputList/sml:output/swe:Quantity")).length ∧
    (∀ i (h1 : i < (qs.map lastSlashSeg).length) (h2 : i < qs.length),
      (qs.map lastSlashSeg).get ⟨i, h1⟩ = lastSlashSeg (qs.get ⟨i, h2⟩)) ∧
    (∀ i (hs : i <
        (system_el.findall (nsp "sml:outputs/sml:OutputList/sml:output/swe:Quantity")).length)
        (h2 : i < qs.length),
      ((system_el.findall (nsp "sml:outputs/sml:OutputList/sml:output/swe:Quantity")).get
        ⟨i, hs⟩).attr "definition" = Option.some (qs.get ⟨i, h2⟩)) ∧
    pyLookup "parameter_uris" r = Option.some (Value.str (pyJoinComma qs)) ∧
    pyLookup "parameters" r = Option.some (Value.str (pyJoinComma (qs.map lastSlashSeg))) := by
  have hq2 : mapExcept (fun q => orThrow (q.attr "definition") (PyErr.keyError "definition"))
      (system_el.findall (nsp "sml:outputs/sml:OutputList/sml:output/swe:Quantity")) =
      Except.ok qs := hq
  have hfa := (mapExcept_ok_iff
    (fun q => orThrow (q.attr "definition") (PyErr.keyError "definition"))
    (system_el.findall (nsp "sml:outputs/sml:OutputList/sml:output/swe:Quantity")) qs).mp hq2
  obtain ⟨hlen, hget⟩ := List.forall₂_iff_get.mp hfa
  obtain ⟨se, wp, dct, qs', p, lt1, lo, lt0, la, oc, pc,
    g1, _, _, g4, _, _, _, _, _, _, _, hr⟩ := build_station_ok hb
  rw [hel] at g1
  obtain rfl : system_el = se := Except.ok.inj g1
  rw [hq] at g4
  obtain rfl : qs = qs' := Except.ok.inj g4
  subst hr
  refine ⟨List.length_map _ _, hlen.symm, ?_, ?_, rfl, rfl⟩
  · intro i h1 h2
    simp [List.get_eq_getElem, List.getElem_map]
  · intro i hs h2
    have := hget i hs h2
    rw [orThrow_ok] at this
    exact this

/-- C6 witness: the sample document's single quantity gives aligned
singleton lists and the joined record fields. -/
theorem parameter_lists_aligned_witness :
    pyLookup "parameter_uris" sampleRec =
      Option.some (Value.str "http://mmisw.org/ont/cf/parameter/air_temperature") ∧
    pyLookup "parameters" sampleRec = Option.some (Value.str "air_temperature") := by
  have h := parameter_lists_aligned sampleUrn sampleDoc sampleRec sampleSystemEl
    ["http://mmisw.org/ont/cf/parameter/air_temperature"]
    (by decide) rfl (by decide)
  exact ⟨h.2.2.2.2.1, h.2.2.2.2.2⟩

/-- C1 counterexample: assembling two records with identical URNs does
not raise any error - the harvest succeeds and both rows are kept, with
the duplicated URN twice in the index; no DuplicateStationKey failure
exists in the code. -/
theorem duplicate_urns_not_fatal :
    pyOk (get_stations_df [(sampleUrn, sampleDoc), (sampleUrn, sampleDoc)]) = true ∧
    resultRowCount (get_stations_df [(sampleUrn, sampleDoc), (sampleUrn, sampleDoc)]) =
      Option.some 2 ∧
    resultIndex (get_stations_df [(sampleUrn, sampleDoc), (sampleUrn, sampleDoc)]) =
      Option.some [Value.str sampleUrn, Value.str sampleUrn] := by
  refine ⟨by decide, by decide, by decide⟩

/-- C1 amended: assembling two parsed stations always yields a two-row
table indexed by the two URNs in processing order - correctly indexed
when the URNs are distinct, and silently carrying a duplicated index when
they coincide; no duplicate-key check is performed. -/
theorem assemble_two_records_table (u1 u2 : String) (d1 d2 : SmlDoc)
    (r1 r2 : List (String × Value))
    (h1 : build_station u1 d1 = Except.ok r1)
    (h2 : build_station u2 d2 = Except.ok r2) :
    get_stations_df [(u1, d1), (u2, d2)] =
      Except.ok
        { columns := stationFields,
          rows := [stationFields.map (fun c => (pyLookup c r1).getD Value.none),
                   stationFields.map (fun c => (pyLookup c r2).getD Value.none)],
          index := [Value.str u1, Value.str u2] } := by
  have hf2 := build_station_ok_fields h2
  simp only [get_stations_df, mapExcept, h1, h2, except_ok_bind]
  rw [show (([r1, r2] : List (List (String × Value))).getLast?) = Option.some r2 from rfl]
  simp only [DataFrame.from_records, DataFrame.col, hf2, List.map_cons, List.map_nil,
    zip_station_urn, build_station_ok_urn h1, build_station_ok_urn h2, Option.getD_some]

/-- C1 amended witness: two distinct URNs over the synthetic document
give the two-row table indexed by those URNs. -/
theorem assemble_two_records_table_witness :
    get_stations_df [(sampleUrnA, sampleDoc), (sampleUrnB, sampleDoc)] =
      Except.ok
        { columns := stationFields,
          rows := [stationFields.map (fun c => (pyLookup c sampleRecA).getD Value.none),
                   stationFields.map (fun c => (pyLookup c sampleRecB).getD Value.none)],
          index := [Value.str sampleUrnA, Value.str sampleUrnB] } :=
  assemble_two_records_table sampleUrnA sampleUrnB sampleDoc sampleDoc sampleRecA sampleRecB
    (by decide) (by decide)

/-- C7 counterexample: no single fixed colon-component position
reproduces the default station filter - the code excludes an offering
whenever any component equals network, as offerings with network in two
different positions show. -/
theorem network_filter_not_fixed_position :
    ¬ ∃ i : Nat, ∀ name ∈ (["network:a", "a:network"] : List String),
      (name ∈ default_station_urns ["network:a", "a:network"] ↔
        (splitOnChar ':' name).getD i "" ≠ "network") := by
  rintro ⟨i, h⟩
  have h1 := h "network:a" (by simp)
  have h2 := h "a:network" (by simp)
  have hm1 : "network:a" ∉ default_station_urns ["network:a", "a:network"] := by decide
  have hm2 : "a:network" ∉ default_station_urns ["network:a", "a:network"] := by decide
  have e1 : (splitOnChar ':' "network:a").getD i "" = "network" := by
    by_contra hne
    exact hm1 (h1.mpr hne)
  have e2 : (splitOnChar ':' "a:network").getD i "" = "network" := by
    by_contra hne
    exact hm2 (h2.mpr hne)
  rw [show splitOnChar ':' "network:a" = ["network", "a"] from by decide] at e1
  rw [show splitOnChar ':' "a:network" = ["a", "network"] from by decide] at e2
  rcases i with _ | _ | n
  · have e2' : ("a" : String) = "network" := e2
    exact absurd e2' (by decide)
  · have e1' : ("a" : String) = "network" := e1
    exact absurd e1' (by decide)
  · have e1' : ("" : String) = "network" := e1
    exact absurd e1' (by decide)

/-- C7 amended: the default station set keeps exactly the offerings none
of whose colon-delimited components equals network, at any position;
every offering with such a component anywhere is excluded. -/
theorem network_filter_any_component (offerings : List String) (name : String) :
    name ∈ default_station_urns offerings ↔
      name ∈ offerings ∧ "network" ∉ splitOnChar ':' name := by
  simp [default_station_urns, List.mem_filter]

/-- C8: a successful harvest table carries exactly the fixed ordered
column list of section 3, one row per processed station in processing
order, and an index equal to the station_urn column, which lists the
processed URNs in order, whatever optional fields were absent. -/
theorem output_table_schema (stations : List (String × SmlDoc)) (df : DataFrame)
    (h : get_stations_df stations = Except.ok df) :
    df.columns = stationFields ∧
    df.rows.length = stations.length ∧
    df.index = stations.map (fun s => Value.str s.1) ∧
    df.index = df.col "station_urn" := by
  obtain ⟨recs, last, hm, hl, hcols, hrows, hidx⟩ := get_stations_df_ok h
  have hfa := (mapExcept_ok_iff _ stations recs).mp hm
  have hlast : last ∈ recs := mem_of_getLast?_eq hl
  obtain ⟨s, hsmem, hbs⟩ := forall2_exists_left hfa last hlast
  have hcols' : df.columns = stationFields := by
    rw [hcols, build_station_ok_fields hbs]
  refine ⟨hcols', ?_, ?_, ?_⟩
  · rw [hrows, List.length_map]
    exact hfa.length_eq.symm
  · rw [hidx, hrows, hcols']
    exact index_of_records hfa
  · rw [hidx]
    rfl

/-- C8 witness: the two-station synthetic harvest has the canonical
columns, two rows, and the URN index equal to the station_urn column. -/
theorem output_table_schema_witness :
    sampleDf.columns = stationFields ∧
    sampleDf.rows.length = 2 ∧
    sampleDf.index = [Value.str sampleUrnA, Value.str sampleUrnB] ∧
    sampleDf.index = sampleDf.col "station_urn" := by
  have h := output_table_schema [(sampleUrnA, sampleDoc), (sampleUrnB, sampleDoc)] sampleDf rfl
  exact ⟨h.1, h.2.1, h.2.2.1, h.2.2.2⟩

example : pySplit "34.5  -120.3" = ["34.5", "-120.3"] := by decide
example : pyFloat "-120.3" = Option.some (-(mkRat 1203 10)) := by decide
example : pyFloat "34.5" = Option.some (mkRat 69 2) := by decide
example : pyFloat "12" = Option.some (mkRat 12 1) := by decide
example : pyFloat "1.2.3" = Option.none := by decide
example : pyFloat "abc" = Option.none := by decide
example : lastSlashSeg "http://a/b/air_temperature" = "air_temperature" := by decide
example : nsp "gml:Point/gml:pos" =
    ["\x7bhttp://www.opengis.net/gml\x7dPoint", "\x7bhttp://www.opengis.net/gml\x7dpos"] := by
  decide
example : pyOk (build_station sampleUrn sampleDoc) = true := by decide
example : sampleRec.lookup "lat" = Option.some (Value.num (mkRat 69 2)) := by decide
example : sampleRec.lookup "lon" = Option.some (Value.num (-(mkRat 1203 10))) := by decide
example : sampleRec.lookup "webpage_url" = Option.some (Value.str "http://example.org/station") := by
  decide
example : sampleRec.lookup "parameters" = Option.some (Value.str "air_temperature") := by decide
example : sampleRec.lookup "starting_isostr" = Option.some (Value.str "2010-01-02T03:04:05") := by
  decide
example : sampleRec.map Prod.fst = stationFields := by decide
example : build_station sampleUrn noOperatorDoc = Except.error (PyErr.keyError "operator") := by
  decide
example : (pyLookup "operator" twoOperatorDct).map (fun c => c.organization) =
    Option.some (Option.some "Second Operator Org") := by decide
example : webpage_url_of noDocsSystemEl = Except.ok Option.none := by decide
example : get_stations_df [] = Except.error PyErr.nameError := by decide
example : default_station_urns ["urn:ioos:network:nanoos:all", "urn:ioos:station:nanoos:s1"] =
    ["urn:ioos:station:nanoos:s1"] := by decide
